import Mathlib

/-!
Verification of the IbexVis browser visualizer (`src/web/ibexvis.js`, and the
earlier revision of the same file) together with a spec-derived model of the
property-simulation core that the UI invokes through the embedded Python
interpreter.  The JS layer is embedded shallowly: plain data shuffling becomes
pure Lean functions over lists, DOM mutation and Plotly calls become an explicit
event list, and JS indexing (which yields `undefined` out of bounds) becomes
`Option`.  Numeric data that the JS merely passes through is kept polymorphic
in a type `α`; concrete instances use `ℚ`.
-/

namespace IbexVis

/-- One Plotly scatter trace, as built by `formdata` in `ibexvis.js`:
`{x:time, y:datavec[c], xaxis:'x'+(c+1), yaxis:'y'+(c+1), type:'scatter', name:propname[c]}`.
`y` and `name` are `Option` because JS indexing out of bounds yields `undefined`. -/
structure Trace (α : Type) where
  x : List α
  y : Option (List α)
  xaxis : String
  yaxis : String
  type : String
  name : Option String
deriving DecidableEq, Repr

/-- `formdata` from `ibexvis.js`:
`(time, propname, datavec) => [...propname].map((_, c) => {x:time, y:datavec[c], xaxis:'x'+(c+1), yaxis:'y'+(c+1), type:'scatter', name:propname[c]})`.
Spreading `propname` and mapping with the index `c` is modelled by mapping over
`List.range propname.length`. -/
def formdata {α : Type} (time : List α) (propname : List String)
    (datavec : List (List α)) : List (Trace α) :=
  (List.range propname.length).map fun c =>
    { x := time
      y := datavec.get? c
      xaxis := "x" ++ toString (c + 1)
      yaxis := "y" ++ toString (c + 1)
      type := "scatter"
      name := propname.get? c }

/-- One Plotly rectangle shape as built by `genshapes`.  `y0`, `y1` and
`opacity` are the literal numbers 0, 1 and 0.2 from the source; `lineWidth`
embeds `line: {width: 0}`. -/
structure Shape (α : Type) where
  type : String
  xref : String
  yref : String
  x0 : α
  x1 : α
  y0 : ℚ
  y1 : ℚ
  fillcolor : String
  opacity : ℚ
  lineWidth : ℚ
deriving DecidableEq, Repr

/-- `genshapes` from `src/web/ibexvis.js`:
`(runs, colour) => runs.map((d) => {type:'rect', xref:'x', yref:'paper', x0:d[0], x1:d[1], y0:0, y1:1, fillcolor:colour, opacity:0.2, line:{width:0}})`. -/
def genshapes {α : Type} (runs : List (α × α)) (colour : String) : List (Shape α) :=
  runs.map fun d =>
    { type := "rect"
      xref := "x"
      yref := "paper"
      x0 := d.1
      x1 := d.2
      y0 := 0
      y1 := 1
      fillcolor := colour
      opacity := 1 / 5
      lineWidth := 0 }

/-- `genshapes` from the earlier revision `src/unnamed/part_000`:
`(runs,) => runs.map((d) => {... fillcolor: '#00d300', ...})` — a single
parameter, with the fill colour hard-coded. -/
def genshapesOld {α : Type} (runs : List (α × α)) : List (Shape α) :=
  runs.map fun d =>
    { type := "rect"
      xref := "x"
      yref := "paper"
      x0 := d.1
      x1 := d.2
      y0 := 0
      y1 := 1
      fillcolor := "#00d300"
      opacity := 1 / 5
      lineWidth := 0 }

/-- The overlay list built on line 77 of `ibexvis.js`:
`genshapes(rundata[3], '#00d300').concat(genshapes(rundata[4], '#d30000'))`,
where `rundata[3]` is `run.counts` and `rundata[4]` is `run.records`. -/
def overlayShapes {α : Type} (counts records : List (α × α)) : List (Shape α) :=
  genshapes counts "#00d300" ++ genshapes records "#d30000"

/-- The Plotly layout built by `calcVis` on the success path:
`{grid: {rows: rundata[2].length, columns: 1, pattern: 'independent'}, shapes: records}`. -/
structure Layout (α : Type) where
  gridRows : ℕ
  gridColumns : ℕ
  gridPattern : String
  shapes : List (Shape α)
deriving DecidableEq, Repr

/-- The tuple the embedded Python snippet evaluates to, after `.toJs()`:
`(time, props, [run.properties[name].data for name in props], run.counts, run.records)`. -/
structure RunData (α : Type) where
  time : List α
  props : List String
  datavecs : List (List α)
  counts : List (α × α)
  records : List (α × α)
deriving DecidableEq, Repr

/-- The `RunResult` shape the core hands to the UI (§3 of the spec): `properties`
maps each property name to its sampled data (`.data` in the Python), including
the synthetic `"time"` entry; `counts` and `records` are the two interval
categories.  Association-list order stands in for dict insertion order. -/
structure RunResult (α : Type) where
  properties : List (String × List α)
  counts : List (α × α)
  records : List (α × α)
deriving DecidableEq, Repr

/-- The Python glue inside `calcVis`'s `runPython` string:
`props = run.properties.keys() - {"time"}`,
`time = run.properties["time"].data`, and the list comprehension
`[run.properties[name].data for name in props]`.  Looking up a missing
`"time"` key raises `KeyError`, which surfaces as the run failing. -/
def pyGlue {α : Type} (run : RunResult α) : Except String (RunData α) :=
  match run.properties.lookup "time" with
  | none => .error "KeyError: time"
  | some timedata =>
      let sel := run.properties.filter fun kv => kv.1 ≠ "time"
      .ok { time := timedata
            props := sel.map fun kv => kv.1
            datavecs := sel.map fun kv => kv.2
            counts := run.counts
            records := run.records }

/-- One observable effect of the `calcVis` click handler: a pyodide FS write,
a mutation of the plot container (`textContent` or `innerHTML`), the embedded
Python run itself, or a `Plotly.newPlot` call. -/
inductive DomEvent (α : Type) where
  | writeFile (filename content : String)
  | setText (s : String)
  | setHtml (s : String)
  | runScript
  | newPlot (data : List (Trace α)) (layout : Layout α)
deriving DecidableEq, Repr

/-- Result of one `calcVis` click: the ordered effects, and the text of an
uncaught exception if one escapes the handler. -/
structure CalcVisResult (α : Type) where
  events : List (DomEvent α)
  uncaught : Option String
deriving DecidableEq, Repr

/-- The `calcVis` click handler of `src/web/ibexvis.js`, with the embedded
runner's outcome abstracted as `runOutcome` (the core is not in this
repository's visible sources).  The handler writes `script.py` and
`config.json`, clears the plot container, and runs the Python snippet.  On
success it builds the overlay shapes, layout and traces and calls
`Plotly.newPlot`.  On failure `rundata` remains `false`, the `catch` block
sets the container's `innerHTML` to the error in a `<pre>` element, and the
subsequent unguarded line `genshapes(rundata[3], '#00d300')` evaluates
`undefined.map`, so a `TypeError` escapes the handler uncaught. -/
def calcVis {α : Type} (scriptpy configjson : String)
    (runOutcome : Except String (RunResult α)) : CalcVisResult α :=
  let before : List (DomEvent α) :=
    [.writeFile "script.py" scriptpy, .writeFile "config.json" configjson,
     .setText "", .runScript]
  match runOutcome.bind pyGlue with
  | .error err =>
      { events := before ++ [.setHtml ("<pre>" ++ err ++ "</pre>")]
        uncaught := some "TypeError: rundata[3] is undefined, undefined.map is not a function" }
  | .ok rd =>
      let shapes := overlayShapes rd.counts rd.records
      let layout : Layout α :=
        { gridRows := rd.datavecs.length, gridColumns := 1
          gridPattern := "independent", shapes := shapes }
      let data := formdata rd.time rd.props rd.datavecs
      { events := before ++ [.newPlot data layout], uncaught := none }

/-- The upload-button click handler of `src/web/ibexvis.js`: when exactly one
file is selected its text replaces the script text area once read; otherwise
the handler returns at `if (filedata.length !== 1) return;` and the text area
keeps its previous value.  A file is represented by its text content. -/
def uploadClick (files : List String) (scriptpyValue : String) : String :=
  match files with
  | [f] => f
  | _ => scriptpyValue

/-! ## Spec-modelled simulation core

The property-simulation engine (the `ibex_vis` Python package the UI runs
through pyodide) is not among the repository's visible sources; the following
definitions are modelled from the spec (§3, §4, §7). -/

/-- Modelled from the spec: error taxonomy of §7 (the `ConfigurationError`
case arises at parse time, before the directive machine runs). -/
inductive ErrKind where
  | configurationError
  | unknownProperty
  | invalidArgument
  | timeoutExceeded
deriving DecidableEq, Repr

/-- Modelled from the spec: `PropertyModel` (§3) — per-property ramp
configuration and dynamic state.  Real values are modelled as rationals. -/
structure PropertyModel where
  value : ℚ
  target : Option ℚ
  rate_up : ℚ
  rate_down : ℚ
  always_advance : Bool
deriving DecidableEq, Repr

/-- Modelled from the spec: the directional rate `advance` applies toward a
target `t` — `rate_up` when the value must increase, `rate_down` otherwise. -/
def PropertyModel.dirRate (p : PropertyModel) (t : ℚ) : ℚ :=
  if p.value < t then p.rate_up else p.rate_down

/-- Modelled from the spec: the state update of `PropertyModel.advance` (§4.1)
for an in-domain duration.  With a target set, the value moves at the
directional rate, clamped so it does not overshoot the target; at the target
(or with no target) the value holds unless `always_advance`, in which case it
free-runs at `rate_up` (the §9 policy choice). -/
def PropertyModel.advanceVal (p : PropertyModel) (dt : ℚ) : PropertyModel :=
  match p.target with
  | some t =>
      if p.value < t then { p with value := min t (p.value + p.rate_up * dt) }
      else if t < p.value then { p with value := max t (p.value + p.rate_down * dt) }
      else if p.always_advance then { p with value := p.value + p.rate_up * dt }
      else p
  | none =>
      if p.always_advance then { p with value := p.value + p.rate_up * dt }
      else p

/-- Modelled from the spec: `PropertyModel.advance` (§4.1); advancing with a
negative duration fails with `InvalidArgument`. -/
def PropertyModel.advance (p : PropertyModel) (dt : ℚ) : Except ErrKind PropertyModel :=
  if dt < 0 then .error .invalidArgument else .ok (p.advanceVal dt)

/-- Modelled from the spec: one property's parsed configuration (§6), after
the `rate` / `rate_up`+`rate_down` surface forms have been resolved. -/
structure PropConfig where
  initial : ℚ
  rate_up : ℚ
  rate_down : ℚ
  always_advance : Bool
deriving DecidableEq, Repr

/-- A parsed configuration: property names with their configurations, in
declaration order. -/
abbrev Config := List (String × PropConfig)

/-- Modelled from the spec: `PropertyRegistry.load` (§4.2) — each configured
property starts at its `initial` value with no target. -/
def loadRegistry (cfg : Config) : List (String × PropertyModel) :=
  cfg.map fun nc =>
    (nc.1, { value := nc.2.initial, target := none, rate_up := nc.2.rate_up,
             rate_down := nc.2.rate_down, always_advance := nc.2.always_advance })

/-- Modelled from the spec: the running state of one simulation — current
time, the registry, the accumulated samples, the two interval categories and
their currently open spans. -/
structure RunState where
  time : ℚ
  registry : List (String × PropertyModel)
  times : List ℚ
  samples : List (List ℚ)
  counts : List (ℚ × ℚ)
  records : List (ℚ × ℚ)
  openCount : Option ℚ
  openRecord : Option ℚ
deriving DecidableEq, Repr

/-- Modelled from the spec: `Clock.advance_by` (§4.3) — all properties advance
atomically by the same `dt`, then a sample of every value is appended. -/
def advanceBy (s : RunState) (dt : ℚ) : RunState :=
  let reg := s.registry.map fun np => (np.1, np.2.advanceVal dt)
  { s with
      time := s.time + dt
      registry := reg
      times := s.times ++ [s.time + dt]
      samples := s.samples ++ [reg.map fun np => np.2.value] }

/-- Modelled from the spec: a wait-condition over the registry's current state
("property X reaches threshold", §4.3). -/
inductive Cond where
  | reachesAbove (prop : String) (threshold : ℚ)
  | reachesBelow (prop : String) (threshold : ℚ)
deriving DecidableEq, Repr

/-- Evaluate a condition; `none` when it names an unknown property. -/
def evalCond (c : Cond) (s : RunState) : Option Bool :=
  match c with
  | .reachesAbove p th => (s.registry.lookup p).map fun m => decide (th ≤ m.value)
  | .reachesBelow p th => (s.registry.lookup p).map fun m => decide (m.value ≤ th)

/-- Modelled from the spec: the directive classes interpreted by the
ScriptRunner (§4.4). -/
inductive Directive where
  | setTarget (prop : String) (target : ℚ)
  | wait (seconds : ℚ)
  | waitUntil (cond : Cond) (timeout step : ℚ)
  | markCountStart
  | markCountEnd
  | markRecordStart
  | markRecordEnd
deriving DecidableEq, Repr

/-- `PropertyModel.set_target` lifted to the registry (§4.1): records the new
target of the named property, with no immediate effect on its value. -/
def setTargetReg (reg : List (String × PropertyModel)) (p : String) (t : ℚ) :
    List (String × PropertyModel) :=
  reg.map fun np => if np.1 = p then (np.1, { np.2 with target := some t }) else np

/-- Modelled from the spec: `Clock.advance_until` (§4.3) as a big-step
relation — advance in increments of `step` (with a final partial increment)
until the condition holds or the budget is exhausted (`TimeoutExceeded`);
a condition over an unknown property fails with `UnknownProperty`. -/
inductive AdvUntil (c : Cond) (step : ℚ) : RunState → ℚ → Except ErrKind RunState → Prop where
  | unknown (s : RunState) (b : ℚ) :
      evalCond c s = none → AdvUntil c step s b (.error .unknownProperty)
  | done (s : RunState) (b : ℚ) :
      evalCond c s = some true → AdvUntil c step s b (.ok s)
  | timeout (s : RunState) (b : ℚ) :
      evalCond c s = some false → b ≤ 0 → AdvUntil c step s b (.error .timeoutExceeded)
  | stepFull (s : RunState) (b : ℚ) (o : Except ErrKind RunState) :
      evalCond c s = some false → 0 < b → step ≤ b →
      AdvUntil c step (advanceBy s step) (b - step) o → AdvUntil c step s b o
  | stepLast (s : RunState) (b : ℚ) (o : Except ErrKind RunState) :
      evalCond c s = some false → 0 < b → b < step →
      AdvUntil c step (advanceBy s b) 0 o → AdvUntil c step s b o

/-- Modelled from the spec: interpretation of one directive (§4.4, §7) —
`set` on an unknown property and a close of a never-opened interval fail, a
negative wait duration is an `InvalidArgument`, waits advance the clock. -/
inductive ExecDir : RunState → Directive → Except ErrKind RunState → Prop where
  | setOk (s : RunState) (p : String) (t : ℚ) :
      s.registry.lookup p ≠ none →
      ExecDir s (.setTarget p t) (.ok { s with registry := setTargetReg s.registry p t })
  | setUnknown (s : RunState) (p : String) (t : ℚ) :
      s.registry.lookup p = none → ExecDir s (.setTarget p t) (.error .unknownProperty)
  | waitNeg (s : RunState) (d : ℚ) :
      d < 0 → ExecDir s (.wait d) (.error .invalidArgument)
  | waitOk (s : RunState) (d : ℚ) :
      0 ≤ d → ExecDir s (.wait d) (.ok (advanceBy s d))
  | waitUntilRel (s : RunState) (c : Cond) (tmo stp : ℚ) (o : Except ErrKind RunState) :
      AdvUntil c stp s tmo o → ExecDir s (.waitUntil c tmo stp) o
  | countStart (s : RunState) :
      ExecDir s .markCountStart (.ok { s with openCount := some s.time })
  | countEndOk (s : RunState) (st : ℚ) :
      s.openCount = some st →
      ExecDir s .markCountEnd
        (.ok { s with counts := s.counts ++ [(st, s.time)], openCount := none })
  | countEndNone (s : RunState) :
      s.openCount = none → ExecDir s .markCountEnd (.error .invalidArgument)
  | recordStart (s : RunState) :
      ExecDir s .markRecordStart (.ok { s with openRecord := some s.time })
  | recordEndOk (s : RunState) (st : ℚ) :
      s.openRecord = some st →
      ExecDir s .markRecordEnd
        (.ok { s with records := s.records ++ [(st, s.time)], openRecord := none })
  | recordEndNone (s : RunState) :
      s.openRecord = none → ExecDir s .markRecordEnd (.error .invalidArgument)

/-- Modelled from the spec: strictly sequential interpretation of the
directive list (§4.4); a failing directive aborts the run with its error. -/
inductive ExecScript : RunState → List Directive → Except ErrKind RunState → Prop where
  | nil (s : RunState) : ExecScript s [] (.ok s)
  | consOk (s : RunState) (d : Directive) (ds : List Directive) (s₂ : RunState)
      (o : Except ErrKind RunState) :
      ExecDir s d (.ok s₂) → ExecScript s₂ ds o → ExecScript s (d :: ds) o
  | consErr (s : RunState) (d : Directive) (ds : List Directive) (e : ErrKind) :
      ExecDir s d (.error e) → ExecScript s (d :: ds) (.error e)

/-- Modelled from the spec: the `RunResult` accumulated by the core (§3),
before the synthetic `"time"` entry and per-property split the UI consumes. -/
structure CoreRunResult where
  times : List ℚ
  samples : List (List ℚ)
  counts : List (ℚ × ℚ)
  records : List (ℚ × ℚ)
deriving DecidableEq, Repr

/-- Modelled from the spec: intervals left open at script end are closed at
the final simulated time (§4.4), and the frozen result is returned. -/
def finalize (s : RunState) : CoreRunResult :=
  { times := s.times
    samples := s.samples
    counts := s.counts ++ (match s.openCount with | some st => [(st, s.time)] | none => [])
    records := s.records ++ (match s.openRecord with | some st => [(st, s.time)] | none => []) }

/-- Modelled from the spec: the initial state — time 0, registry freshly
loaded from the configuration, with the initial sample already taken (§8's
empty-script scenario yields `time == [0]`). -/
def initState (cfg : Config) : RunState :=
  let reg := loadRegistry cfg
  { time := 0
    registry := reg
    times := [0]
    samples := [reg.map fun np => np.2.value]
    counts := []
    records := []
    openCount := none
    openRecord := none }

/-- Modelled from the spec: the core's single entry point
`run(script, config) -> RunResult | Error` (§6), as a big-step relation.
Each run constructs a fresh registry from the configuration (§5). -/
inductive Run (script : List Directive) (cfg : Config) : Except ErrKind CoreRunResult → Prop where
  | completed (s : RunState) :
      ExecScript (initState cfg) script (.ok s) → Run script cfg (.ok (finalize s))
  | failed (e : ErrKind) :
      ExecScript (initState cfg) script (.error e) → Run script cfg (.error e)

/-! ## Observers and concrete demonstration values -/

/-- All traces passed to `Plotly.newPlot` during one handler invocation, in
order. -/
def plottedData {α : Type} (r : CalcVisResult α) : List (Trace α) :=
  r.events.foldr (fun e acc => match e with | .newPlot data _ => data ++ acc | _ => acc) []

/-- All layouts passed to `Plotly.newPlot` during one handler invocation, in
order. -/
def plottedLayouts {α : Type} (r : CalcVisResult α) : List (Layout α) :=
  r.events.foldr (fun e acc => match e with | .newPlot _ l => l :: acc | _ => acc) []

/-- A concrete successful run result: a time axis, two plottable properties
and one interval of each category. -/
def demoRunResult : RunResult ℚ :=
  { properties := [("time", [0, 1]), ("T", [3, 4]), ("P", [5, 6])]
    counts := [(0, 1)]
    records := [(2, 3)] }

/-- A concrete property model ramping up from 0 toward target 10 at rate 2. -/
def pDemo : PropertyModel :=
  { value := 0, target := some 10, rate_up := 2, rate_down := -2, always_advance := false }

/-- A concrete script: set a target on `"T"`, then wait 5 seconds. -/
def demoScript : List Directive := [.setTarget "T" 10, .wait 5]

/-- A concrete configuration declaring the single property `"T"`. -/
def demoCfg : Config :=
  [("T", { initial := 0, rate_up := 2, rate_down := -2, always_advance := false })]

/-- The state after the `setTarget` directive of `demoScript`. -/
def demoMid : RunState :=
  { initState demoCfg with registry := setTargetReg (initState demoCfg).registry "T" 10 }

/-! ## Helper lemmas -/

theorem range_map_get? {β : Type} (l : List β) :
    (List.range l.length).map (fun c => l.get? c) = l.map some := by
  induction l with
  | nil => rfl
  | cons a l ih =>
      rw [List.length_cons, List.range_succ_eq_map, List.map_cons, List.map_map, List.map_cons]
      refine congrArg₂ List.cons rfl ?_
      have hc : ((fun c => (a :: l).get? c) ∘ Nat.succ) = fun c => l.get? c := by
        funext c
        rfl
      rw [hc]
      exact ih

theorem formdata_names {α : Type} (time : List α) (propname : List String)
    (datavec : List (List α)) :
    (formdata time propname datavec).map Trace.name = propname.map some := by
  unfold formdata
  rw [List.map_map]
  exact range_map_get? propname

theorem formdata_xs {α : Type} (time : List α) (propname : List String)
    (datavec : List (List α)) :
    (formdata time propname datavec).map Trace.x = List.replicate propname.length time := by
  unfold formdata
  rw [List.map_map]
  show (List.range propname.length).map (fun _ => time) = _
  simp [List.map_const']

theorem map_fst_filter_ne {β : Type} (l : List (String × β)) (bad : String) :
    (l.filter fun kv => kv.1 ≠ bad).map (fun kv => kv.1) =
      (l.map Prod.fst).filter (fun k => k ≠ bad) := by
  induction l with
  | nil => rfl
  | cons a l ih => by_cases h : a.1 = bad <;> simp [List.filter_cons, h] <;> simpa using ih

theorem formdata_axis_ids {α : Type} (time : List α) (propname : List String)
    (datavec : List (List α)) (i : ℕ) :
    ((formdata time propname datavec).get? i).map Trace.xaxis =
      (propname.get? i).map (fun _ => "x" ++ toString (i + 1)) ∧
    ((formdata time propname datavec).get? i).map Trace.yaxis =
      (propname.get? i).map (fun _ => "y" ++ toString (i + 1)) := by
  unfold formdata
  rw [List.get?_map]
  by_cases hi : i < propname.length
  · rw [List.get?_range hi, List.get?_eq_get hi]
    exact ⟨rfl, rfl⟩
  · rw [List.get?_eq_none.mpr (by simpa using not_lt.mp hi),
        List.get?_eq_none.mpr (not_lt.mp hi)]
    exact ⟨rfl, rfl⟩

/-! ## Claim theorems: the visualization layer -/

/-- C2: `formdata(time, propname, datavec)` returns exactly one trace per
property name; the i-th trace has `x` the shared time array, `y` the i-th
data vector, type `"scatter"`, the i-th property name, and subplot axis
identifiers `"x"+(i+1)` and `"y"+(i+1)`. -/
theorem formdata_spec {α : Type} (time : List α) (propname : List String)
    (datavec : List (List α)) (i : ℕ) (hi : i < propname.length) :
    (formdata time propname datavec).length = propname.length ∧
    (formdata time propname datavec).get? i =
      some { x := time, y := datavec.get? i, xaxis := "x" ++ toString (i + 1),
             yaxis := "y" ++ toString (i + 1), type := "scatter",
             name := propname.get? i } := by
  constructor
  · simp [formdata]
  · unfold formdata
    rw [List.get?_map, List.get?_range hi]
    rfl

/-- Witness for C2 at a concrete input, with a `y` vector missing for the
second property (JS indexing past the end yields `undefined`). -/
theorem formdata_spec_witness :
    (formdata ([1, 2] : List ℚ) ["a", "b"] [[3, 4]]).length =
      (["a", "b"] : List String).length ∧
    (formdata ([1, 2] : List ℚ) ["a", "b"] [[3, 4]]).get? 1 =
      some { x := [1, 2], y := ([[3, 4]] : List (List ℚ)).get? 1,
             xaxis := "x" ++ toString (1 + 1), yaxis := "y" ++ toString (1 + 1),
             type := "scatter", name := (["a", "b"] : List String).get? 1 } :=
  formdata_spec [1, 2] ["a", "b"] [[3, 4]] 1 (by decide)

/-- C4: `genshapes` returns one full-height rectangle per interval pair with
the pair endpoints as `x0`/`x1`, `yref` "paper", `y0 = 0`, `y1 = 1`, the given
fill colour at opacity 0.2; `calcVis` builds the overlay list as
`genshapes(counts, "#00d300") ++ genshapes(records, "#d30000")`, and the two
category colours are distinct. -/
theorem genshapes_overlay_spec {α : Type} (pairs counts records : List (α × α))
    (colour : String) (i : ℕ) :
    (genshapes pairs colour).length = pairs.length ∧
    (genshapes pairs colour).get? i = (pairs.get? i).map (fun d =>
      { type := "rect", xref := "x", yref := "paper", x0 := d.1, x1 := d.2,
        y0 := 0, y1 := 1, fillcolor := colour, opacity := 1 / 5, lineWidth := 0 }) ∧
    overlayShapes counts records =
      genshapes counts "#00d300" ++ genshapes records "#d30000" ∧
    ("#00d300" : String) ≠ "#d30000" :=
  ⟨by simp [genshapes], by rw [genshapes, List.get?_map], rfl, by decide⟩

/-- C8: the old `genshapes` of `src/unnamed/part_000` (colour hard-coded to
"#00d300") agrees with the new two-argument `genshapes` applied at colour
"#00d300" on every list of interval pairs. -/
theorem genshapesOld_eq_new {α : Type} (runs : List (α × α)) :
    genshapesOld runs = genshapes runs "#00d300" := rfl

/-- C9: a click of the upload button leaves the script text area unchanged
unless exactly one file is selected, in which case its text replaces the
content. -/
theorem uploadClick_frame (files : List String) (v : String) :
    (files.length ≠ 1 → uploadClick files v = v) ∧
    (∀ f, files = [f] → uploadClick files v = f) := by
  constructor
  · intro h
    match files with
    | [] => rfl
    | [a] => exact absurd rfl h
    | a :: b :: rest => rfl
  · rintro f rfl
    rfl

/-- Witness for C9: two selected files leave the text area unchanged; a
single selected file replaces it. -/
theorem uploadClick_frame_witness :
    uploadClick ["a", "b"] "old" = "old" ∧ uploadClick ["one"] "old" = "one" :=
  ⟨(uploadClick_frame ["a", "b"] "old").1 (by decide),
   (uploadClick_frame ["one"] "old").2 "one" rfl⟩

/-- C10: every `calcVis` invocation writes the two files and then clears the
plot container (`textContent = ""`) before the embedded run executes,
whatever the run then does — so the previous plot is erased on every click,
including failing ones. -/
theorem calcVis_clears_first {α : Type} (s c : String)
    (o : Except String (RunResult α)) :
    ((calcVis s c o).events).take 4 =
      [.writeFile "script.py" s, .writeFile "config.json" c, .setText "", .runScript] := by
  cases ho : o.bind pyGlue <;> simp [calcVis, ho]

/-- C1 (the code at the failing input): when the embedded run fails, the
handler writes the error into a `<pre>` element of the plot container and
calls no `Plotly.newPlot`, but then dereferences `rundata[3]` with
`rundata === false`, so a `TypeError` escapes the handler uncaught. -/
theorem calcVis_error_path :
    calcVis "script" "config" (Except.error "PythonError: boom" : Except String (RunResult ℚ)) =
      { events := [.writeFile "script.py" "script", .writeFile "config.json" "config",
                   .setText "", .runScript, .setHtml "<pre>PythonError: boom</pre>"],
        uncaught := some "TypeError: rundata[3] is undefined, undefined.map is not a function" } := by
  rfl

theorem plottedData_ok {α : Type} (s c : String) (run : RunResult α) (td : List α)
    (ht : run.properties.lookup "time" = some td) :
    plottedData (calcVis s c (.ok run)) =
      formdata td ((run.properties.filter fun kv => kv.1 ≠ "time").map fun kv => kv.1)
        ((run.properties.filter fun kv => kv.1 ≠ "time").map fun kv => kv.2) := by
  simp [calcVis, pyGlue, ht, plottedData, Except.bind]

theorem plottedLayouts_ok {α : Type} (s c : String) (run : RunResult α) (td : List α)
    (ht : run.properties.lookup "time" = some td) :
    plottedLayouts (calcVis s c (.ok run)) =
      [{ gridRows := ((run.properties.filter fun kv => kv.1 ≠ "time").map fun kv => kv.2).length,
         gridColumns := 1, gridPattern := "independent",
         shapes := overlayShapes run.counts run.records }] := by
  simp [calcVis, pyGlue, ht, plottedLayouts, Except.bind]

/-- C3: on a successful run the traces plotted by `calcVis` are exactly the
non-time properties: their names are the key list of `run.properties` with
`"time"` removed, no trace is named `"time"`, and every trace takes its x data
from the `"time"` entry. -/
theorem calcVis_plots_nontime {α : Type} (s c : String) (run : RunResult α)
    (td : List α) (ht : run.properties.lookup "time" = some td) :
    (plottedData (calcVis s c (.ok run))).map Trace.name =
      ((run.properties.map Prod.fst).filter (fun k => k ≠ "time")).map some ∧
    some "time" ∉ (plottedData (calcVis s c (.ok run))).map Trace.name ∧
    (plottedData (calcVis s c (.ok run))).map Trace.x =
      List.replicate (run.properties.filter fun kv => kv.1 ≠ "time").length td := by
  have hnames : (plottedData (calcVis s c (.ok run))).map Trace.name =
      ((run.properties.map Prod.fst).filter (fun k => k ≠ "time")).map some := by
    rw [plottedData_ok s c run td ht, formdata_names, map_fst_filter_ne]
  refine ⟨hnames, ?_, ?_⟩
  · rw [hnames]
    simp
  · rw [plottedData_ok s c run td ht, formdata_xs]
    simp

/-- Witness for C3: a concrete run with properties `time`, `T`, `P`. -/
theorem calcVis_plots_nontime_witness :
    (plottedData (calcVis "s" "c" (.ok demoRunResult))).map Trace.name =
      ((demoRunResult.properties.map Prod.fst).filter (fun k => k ≠ "time")).map some ∧
    some "time" ∉ (plottedData (calcVis "s" "c" (.ok demoRunResult))).map Trace.name ∧
    (plottedData (calcVis "s" "c" (.ok demoRunResult))).map Trace.x =
      List.replicate (demoRunResult.properties.filter fun kv => kv.1 ≠ "time").length
        ([0, 1] : List ℚ) :=
  calcVis_plots_nontime "s" "c" demoRunResult [0, 1] rfl

/-- C5: on a successful run `calcVis` passes Plotly a grid of one row per
non-time property and one column with pattern "independent", and the i-th
trace carries the axis identifiers of the i-th subplot. -/
theorem calcVis_grid_layout {α : Type} (s c : String) (run : RunResult α)
    (td : List α) (i : ℕ) (ht : run.properties.lookup "time" = some td) :
    plottedLayouts (calcVis s c (.ok run)) =
      [{ gridRows := (run.properties.filter fun kv => kv.1 ≠ "time").length,
         gridColumns := 1, gridPattern := "independent",
         shapes := overlayShapes run.counts run.records }] ∧
    ((plottedData (calcVis s c (.ok run))).get? i).map Trace.xaxis =
      ((run.properties.filter fun kv => kv.1 ≠ "time").get? i).map
        (fun _ => "x" ++ toString (i + 1)) ∧
    ((plottedData (calcVis s c (.ok run))).get? i).map Trace.yaxis =
      ((run.properties.filter fun kv => kv.1 ≠ "time").get? i).map
        (fun _ => "y" ++ toString (i + 1)) := by
  refine ⟨?_, ?_, ?_⟩
  · rw [plottedLayouts_ok s c run td ht]
    simp
  · rw [plottedData_ok s c run td ht,
        (formdata_axis_ids td _ _ i).1, List.get?_map, Option.map_map]
    rfl
  · rw [plottedData_ok s c run td ht,
        (formdata_axis_ids td _ _ i).2, List.get?_map, Option.map_map]
    rfl

/-- Witness for C5: the concrete run `demoRunResult` and subplot index 0. -/
theorem calcVis_grid_layout_witness :
    plottedLayouts (calcVis "s" "c" (.ok demoRunResult)) =
      [{ gridRows := (demoRunResult.properties.filter fun kv => kv.1 ≠ "time").length,
         gridColumns := 1, gridPattern := "independent",
         shapes := overlayShapes demoRunResult.counts demoRunResult.records }] ∧
    ((plottedData (calcVis "s" "c" (.ok demoRunResult))).get? 0).map Trace.xaxis =
      ((demoRunResult.properties.filter fun kv => kv.1 ≠ "time").get? 0).map
        (fun _ => "x" ++ toString (0 + 1)) ∧
    ((plottedData (calcVis "s" "c" (.ok demoRunResult))).get? 0).map Trace.yaxis =
      ((demoRunResult.properties.filter fun kv => kv.1 ≠ "time").get? 0).map
        (fun _ => "y" ++ toString (0 + 1)) :=
  calcVis_grid_layout "s" "c" demoRunResult [0, 1] 0 rfl

/-! ## Determinism of the spec-modelled core -/

theorem advUntil_det {c : Cond} {step : ℚ} {s : RunState} {b : ℚ}
    {o₁ o₂ : Except ErrKind RunState} (h₁ : AdvUntil c step s b o₁) :
    AdvUntil c step s b o₂ → o₁ = o₂ := by
  induction h₁ generalizing o₂ with
  | unknown s b h =>
      intro h₂
      cases h₂ with
      | unknown _ _ h' => rfl
      | done _ _ h' => rw [h] at h'; cases h'
      | timeout _ _ h' _ => rw [h] at h'; cases h'
      | stepFull _ _ _ h' _ _ _ => rw [h] at h'; cases h'
      | stepLast _ _ _ h' _ _ _ => rw [h] at h'; cases h'
  | done s b h =>
      intro h₂
      cases h₂ with
      | unknown _ _ h' => rw [h] at h'; cases h'
      | done _ _ h' => rfl
      | timeout _ _ h' _ => rw [h] at h'; simp at h'
      | stepFull _ _ _ h' _ _ _ => rw [h] at h'; simp at h'
      | stepLast _ _ _ h' _ _ _ => rw [h] at h'; simp at h'
  | timeout s b h hb =>
      intro h₂
      cases h₂ with
      | unknown _ _ h' => rw [h] at h'; cases h'
      | done _ _ h' => rw [h] at h'; simp at h'
      | timeout _ _ h' _ => rfl
      | stepFull _ _ _ h' hb' _ _ => linarith
      | stepLast _ _ _ h' hb' _ _ => linarith
  | stepFull s b o h hb hsb hrec ih =>
      intro h₂
      cases h₂ with
      | unknown _ _ h' => rw [h] at h'; cases h'
      | done _ _ h' => rw [h] at h'; simp at h'
      | timeout _ _ h' hb' => linarith
      | stepFull _ _ _ h' hb' hsb' hrec' => exact ih hrec'
      | stepLast _ _ _ h' hb' hbs' hrec' => linarith
  | stepLast s b o h hb hbs hrec ih =>
      intro h₂
      cases h₂ with
      | unknown _ _ h' => rw [h] at h'; cases h'
      | done _ _ h' => rw [h] at h'; simp at h'
      | timeout _ _ h' hb' => linarith
      | stepFull _ _ _ h' hb' hsb' hrec' => linarith
      | stepLast _ _ _ h' hb' hbs' hrec' => exact ih hrec'

theorem execDir_det {s : RunState} {d : Directive} {o₁ o₂ : Except ErrKind RunState}
    (h₁ : ExecDir s d o₁) (h₂ : ExecDir s d o₂) : o₁ = o₂ := by
  cases h₁ <;> cases h₂ <;>
    first
      | rfl
      | (exfalso; linarith)
      | (apply advUntil_det <;> assumption)
      | simp_all

theorem execScript_det {s : RunState} {ds : List Directive}
    {o₁ o₂ : Except ErrKind RunState} (h₁ : ExecScript s ds o₁) :
    ExecScript s ds o₂ → o₁ = o₂ := by
  induction h₁ generalizing o₂ with
  | nil s =>
      intro h₂
      cases h₂
      rfl
  | consOk s d ds s₂ o hd hs ih =>
      intro h₂
      cases h₂ with
      | consOk _ _ _ s₂' o' hd' hs' =>
          have he := execDir_det hd hd'
          rw [Except.ok.injEq] at he
          subst he
          exact ih hs'
      | consErr _ _ _ e hd' =>
          have he := execDir_det hd hd'
          cases he
  | consErr s d ds e hd =>
      intro h₂
      cases h₂ with
      | consOk _ _ _ s₂' o' hd' hs' =>
          have he := execDir_det hd hd'
          cases he
      | consErr _ _ _ e' hd' =>
          have he := execDir_det hd hd'
          rw [Except.error.injEq] at he
          rw [he]

/-- C6: the spec-modelled entry point `run(script, config)` is deterministic —
two runs of the same script against the same configuration produce the same
outcome (there is no hidden real-time or random dependency: the big-step
relation is a function of the script and configuration alone). -/
theorem run_det {script : List Directive} {cfg : Config}
    {o₁ o₂ : Except ErrKind CoreRunResult}
    (h₁ : Run script cfg o₁) (h₂ : Run script cfg o₂) : o₁ = o₂ := by
  cases h₁ with
  | completed s h =>
      cases h₂ with
      | completed s' h' =>
          have he := execScript_det h h'
          rw [Except.ok.injEq] at he
          rw [he]
      | failed e h' =>
          have he := execScript_det h h'
          cases he
  | failed e h =>
      cases h₂ with
      | completed s' h' =>
          have he := execScript_det h h'
          cases he
      | failed e' h' =>
          have he := execScript_det h h'
          rw [Except.error.injEq] at he
          rw [he]

theorem demoRun : Run demoScript demoCfg (.ok (finalize (advanceBy demoMid 5))) := by
  apply Run.completed
  refine ExecScript.consOk _ _ _ demoMid _ ?_ ?_
  · exact ExecDir.setOk (initState demoCfg) "T" 10 (by decide)
  · refine ExecScript.consOk _ _ _ (advanceBy demoMid 5) _ ?_ (ExecScript.nil _)
    exact ExecDir.waitOk demoMid 5 (by norm_num)

/-- Witness for C6: the demo script replayed against the demo configuration
reaches the same result both times. -/
theorem run_det_witness :
    (Except.ok (finalize (advanceBy demoMid 5)) : Except ErrKind CoreRunResult) =
      .ok (finalize (advanceBy demoMid 5)) :=
  run_det demoRun demoRun

/-! ## Claim theorem: ramp clamping of the spec-modelled PropertyModel -/

/-- C7: for a `PropertyModel` with a target set, `always_advance = false` and
a nonzero directional rate, advancing by any duration of at least
`(target - value) / rate` puts the value exactly on the target — the move is
clamped so the value never overshoots — and every further advance leaves the
state unchanged. -/
theorem advance_reaches_target (p : PropertyModel) (t dt dt' : ℚ)
    (htgt : p.target = some t) (haa : p.always_advance = false)
    (hup : p.value < t → 0 < p.rate_up)
    (hdown : t < p.value → p.rate_down < 0)
    (hdt : (t - p.value) / p.dirRate t ≤ dt) (hdt' : 0 ≤ dt') :
    p.advance dt = .ok (p.advanceVal dt) ∧
    (p.advanceVal dt).value = t ∧
    (p.advanceVal dt).advance dt' = .ok (p.advanceVal dt) := by
  obtain ⟨v, tg, ru, rd, aa⟩ := p
  subst htgt haa
  simp only [PropertyModel.dirRate] at hdt
  have h0 : 0 ≤ dt := by
    rcases lt_trichotomy v t with h | h | h
    · rw [if_pos h] at hdt
      have hr := hup h
      have hpos : 0 < (t - v) / ru := div_pos (by linarith) hr
      linarith
    · rw [h] at hdt
      simp at hdt
      linarith
    · rw [if_neg (not_lt.mpr h.le)] at hdt
      have hr := hdown h
      have hpos : 0 < (t - v) / rd := div_pos_of_neg_of_neg (by linarith) hr
      linarith
  have hq : PropertyModel.advanceVal ⟨v, some t, ru, rd, false⟩ dt =
      ⟨t, some t, ru, rd, false⟩ := by
    simp only [PropertyModel.advanceVal]
    rcases lt_trichotomy v t with h | h | h
    · rw [if_pos h] at hdt ⊢
      have hr := hup h
      have hle : t - v ≤ dt * ru := (div_le_iff hr).mp hdt
      have hmin : min t (v + ru * dt) = t := min_eq_left (by linarith [mul_comm dt ru])
      rw [hmin]
    · subst h
      simp
    · rw [if_neg (not_lt.mpr h.le)] at hdt ⊢
      rw [if_pos h]
      have hr := hdown h
      have hle : dt * rd ≤ t - v := (div_le_iff_of_neg hr).mp hdt
      have hmax : max t (v + rd * dt) = t := max_eq_left (by linarith [mul_comm dt rd])
      rw [hmax]
  refine ⟨?_, ?_, ?_⟩
  · simp [PropertyModel.advance, not_lt.mpr h0]
  · rw [hq]
  · rw [hq]
    simp [PropertyModel.advance, PropertyModel.advanceVal, not_lt.mpr hdt']

/-- Witness for C7: `pDemo` ramps from 0 to target 10 at rate 2 within 5
seconds, and a further 3-second advance changes nothing. -/
theorem advance_reaches_target_witness :
    pDemo.advance 5 = .ok (pDemo.advanceVal 5) ∧
    (pDemo.advanceVal 5).value = 10 ∧
    (pDemo.advanceVal 5).advance 3 = .ok (pDemo.advanceVal 5) :=
  advance_reaches_target pDemo 10 5 3 rfl rfl
    (fun _ => by norm_num [pDemo])
    (fun _ => by norm_num [pDemo])
    (by norm_num [pDemo, PropertyModel.dirRate])
    (by norm_num)

end IbexVis
